import Mathlib

/-!
Shallow embedding of the live-video render pipeline implemented by class
`CD3D11Render` in `win/samples/demod3d11/d3d11render.cpp` / `d3d11render.h`.

Modelling conventions:
- C `unsigned` (32-bit) arithmetic is `Nat` with explicit `% 2 ^ 32` where
  overflow can occur; C `int` values are `Int`.
- IEEE `float`/`double` arithmetic in the viewport and shader-scale
  computations is modelled as exact rational (`ℚ`) arithmetic;
  `static_cast<int>` is truncation toward zero (`cIntTrunc`).
- Calls into Direct3D/DXGI and the camera SDK are external and fallible;
  each call site's success or failure is an input of the model (`IterEnv`,
  `InitEnv`), and the code's control flow on those outcomes is translated
  faithfully.
- The two threads interact only through the packed atomic register
  `m_resize` (plus the wakeup event, recorded as `Action.waited`): the
  control-thread operations and the render-loop iteration are modelled as
  explicit state transformers on `RenderState`.
-/

namespace D3D11Render

/-- Modulus of C 32-bit `unsigned` arithmetic. -/
def U32 : Nat := 4294967296

/-- A D3D11 viewport rectangle as computed by `CD3D11Render::Resize(int, int)`
(d3d11render.cpp:247-256); the float fields of `D3D11_VIEWPORT` are set from
the `int` values `vpX`, `vpY`, `vpW`, `vpH`, which we record. -/
structure Viewport where
  x : Int
  y : Int
  w : Int
  h : Int
deriving DecidableEq

/-- C `static_cast<int>` of a (rational-modelled) floating value: truncation
toward zero. -/
def cIntTrunc (q : ℚ) : Int := Int.tdiv q.num (q.den : Int)

/-- The `__min(a, b)` macro: `((a) < (b)) ? (a) : (b)`. -/
def cppMin (a b : ℚ) : ℚ := if a < b then a else b

/-- The viewport computation of `CD3D11Render::Resize(int, int)`
(d3d11render.cpp:247-251):
`scale = __min(windowWidth / (float)imageWidth, windowHeight / (float)imageHeight)`,
`vpW = (int)(imageWidth * scale)`, `vpH = (int)(imageHeight * scale)`,
`vpX = (windowWidth - vpW) / 2`, `vpY = (windowHeight - vpH) / 2`. -/
def computeViewport (imageWidth imageHeight windowWidth windowHeight : Int) : Viewport :=
  let scale : ℚ := cppMin ((windowWidth : ℚ) / (imageWidth : ℚ)) ((windowHeight : ℚ) / (imageHeight : ℚ))
  let vpW : Int := cIntTrunc ((imageWidth : ℚ) * scale)
  let vpH : Int := cIntTrunc ((imageHeight : ℚ) * scale)
  let vpX : Int := Int.tdiv (windowWidth - vpW) 2
  let vpY : Int := Int.tdiv (windowHeight - vpH) 2
  ⟨vpX, vpY, vpW, vpH⟩

/-- The packed value written to the atomic register `m_resize` by the
notification `CD3D11Render::Resize()` (d3d11render.cpp:227):
`0x80000000 | (cx << 16) | cy`, in 32-bit arithmetic. -/
def packResize (cx cy : Nat) : Nat :=
  0x80000000 ||| ((cx <<< 16) % U32) ||| (cy % U32)

/-- Pending test of the packed register (d3d11render.cpp:291): `val & 0x80000000`. -/
def resizePending (val : Nat) : Bool := val &&& 0x80000000 != 0

/-- Width decoding of the packed register (d3d11render.cpp:294): `(val >> 16) & 0x7fff`. -/
def resizeW (val : Nat) : Nat := (val >>> 16) &&& 0x7fff

/-- Height decoding of the packed register (d3d11render.cpp:294): `val & 0x7fff`. -/
def resizeH (val : Nat) : Nat := val &&& 0x7fff

/-- Mutable state of a `CD3D11Render` object that the modelled operations
touch: the constant image dimensions, the last applied window dimensions
(`m_windowWidth`/`m_windowHeight`), the currently set viewport (the last
`RSSetViewports` argument, `none` before the first successful resize), the
packed resize register `m_resize`, and the frame counters
`m_nFrame`/`m_totalFrame`. -/
structure RenderState where
  imageWidth : Int
  imageHeight : Int
  windowWidth : Int
  windowHeight : Int
  viewport : Option Viewport
  resize : Nat
  nFrame : Nat
  totalFrame : Nat
deriving DecidableEq

/-- The resize notification `CD3D11Render::Resize()` (d3d11render.cpp:219-230),
with the observed client-rectangle dimensions `cx`, `cy` as inputs: if they
differ from the recorded `m_windowWidth`/`m_windowHeight`, the packed request
is stored into the register (and the event is signalled); otherwise nothing
happens. -/
def notifyResize (s : RenderState) (cx cy : Nat) : RenderState :=
  if s.windowWidth ≠ (cx : Int) ∨ s.windowHeight ≠ (cy : Int) then
    { s with resize := packResize cx cy }
  else
    s

/-- A burst of resize notifications delivered before the render loop next
runs (so `m_windowWidth`/`m_windowHeight` are not rewritten in between). -/
def notifySeq (s : RenderState) (calls : List (Nat × Nat)) : RenderState :=
  calls.foldl (fun t c => notifyResize t c.1 c.2) s

/-- The notification calls of a burst that pass the changed-size guard of
`CD3D11Render::Resize()` against the window size recorded in `s`. -/
def effectiveCalls (s : RenderState) (calls : List (Nat × Nat)) : List (Nat × Nat) :=
  calls.filter (fun c => decide (s.windowWidth ≠ (c.1 : Int) ∨ s.windowHeight ≠ (c.2 : Int)))

/-- Success or failure of each external (Direct3D/DXGI/camera SDK) call a
single render-loop iteration may perform. -/
structure IterEnv where
  getDescOk : Bool
  resizeBuffersOk : Bool
  mapOk : Bool
  pullOk : Bool
  rtvOk : Bool
  presentOk : Bool
deriving DecidableEq

/-- The worker-side `CD3D11Render::Resize(int windowWidth, int windowHeight)`
(d3d11render.cpp:232-258): records the new window size, then `GetDesc` and
`ResizeBuffers` on the swapchain (either failure returns the failing HRESULT,
modelled as `false`, with the viewport left untouched); on success the
viewport is recomputed and set, and `S_OK` (`true`) is returned. -/
def applyResize (env : IterEnv) (s : RenderState) (w h : Int) : RenderState × Bool :=
  let s1 := { s with windowWidth := w, windowHeight := h }
  if !env.getDescOk then
    (s1, false)
  else if !env.resizeBuffersOk then
    (s1, false)
  else
    ({ s1 with viewport := some (computeViewport s1.imageWidth s1.imageHeight w h) }, true)

/-- Observable actions of one render-loop iteration, in program order. -/
inductive Action where
  | resized (w h : Nat) (ok : Bool)
  | mapped (ok : Bool)
  | pulled (ok : Bool)
  | drew
  | presented (ok : Bool)
  | waited
deriving DecidableEq

/-- One iteration of the `while (m_loop)` body of `CD3D11Render::Loop()`
(d3d11render.cpp:287-327): first the packed register is loaded; if the
pending bit is set the register is cleared, `Resize(int, int)` is applied to
the decoded dimensions (its HRESULT is discarded) and the iteration restarts
(`continue`). Otherwise the texture is mapped and a frame pulled; if either
fails the loop blocks on the event (`WaitForSingleObject`) and restarts.
Otherwise, if a render-target view is obtained (`SetupRtv`,
d3d11render.cpp:261-277) the quad is drawn and presented, and on successful
`Present` both frame counters are incremented. -/
def loopIter (env : IterEnv) (s : RenderState) : RenderState × List Action :=
  let val := s.resize
  if resizePending val then
    let s1 := { s with resize := 0 }
    let r := applyResize env s1 (resizeW val : Int) (resizeH val : Int)
    (r.1, [Action.resized (resizeW val) (resizeH val) r.2])
  else if !env.mapOk then
    (s, [Action.mapped false, Action.waited])
  else if !env.pullOk then
    (s, [Action.mapped true, Action.pulled false, Action.waited])
  else if !env.rtvOk then
    (s, [Action.mapped true, Action.pulled true])
  else if !env.presentOk then
    (s, [Action.mapped true, Action.pulled true, Action.drew, Action.presented false])
  else
    ({ s with nFrame := (s.nFrame + 1) % U32, totalFrame := (s.totalFrame + 1) % U32 },
     [Action.mapped true, Action.pulled true, Action.drew, Action.presented true])

/-- State of the frame-rate sampler `CD3D11Render::GetFrameRate`
(`m_nTick`, `m_nFrame`, `m_totalFrame`), all 32-bit unsigned. -/
structure RateState where
  nTick : Nat
  nFrame : Nat
  totalFrame : Nat
deriving DecidableEq

/-- C 32-bit unsigned subtraction `a - b`. -/
def u32sub (a b : Nat) : Nat := (a % U32 + U32 - b % U32) % U32

/-- The sampler `CD3D11Render::GetFrameRate` (d3d11render.cpp:29-43), with the
current tick as input: `diff = tick - m_nTick`; if `diff > 500` it reports
`(m_nFrame, diff, m_totalFrame)` and resets `m_nTick` to the current tick and
`m_nFrame` to 0; otherwise it reports nothing and changes nothing. -/
def getFrameRate (s : RateState) (tick : Nat) : Option (Nat × Nat × Nat) × RateState :=
  let diff := u32sub tick s.nTick
  if diff > 500 then
    (some (s.nFrame, diff, s.totalFrame), { s with nTick := tick % U32, nFrame := 0 })
  else
    (none, s)

/-- The SCALE macro value compiled into the pixel shader by
`CD3D11Render::CreateShaders` (d3d11render.cpp:165-172), as the exact value
the code computes before `%.8f` formatting: `"1.0"` when
`(m_bitdepth <= 8) || (m_bitdepth >= 16)`, else `65535.0 / ((1 << m_bitdepth) - 1)`. -/
def shaderScale (bitdepth : Nat) : ℚ :=
  if bitdepth ≤ 8 || bitdepth ≥ 16 then 1
  else 65535 / (((1 <<< bitdepth) - 1 : Nat) : ℚ)

/-- The scale the specification ascribes to the shader: 1.0 when the bit
depth is at most 8 or exactly 16, else `65535 / ((1 << bitDepth) - 1)`. -/
def specShaderScale (bitdepth : Nat) : ℚ :=
  if bitdepth ≤ 8 || bitdepth == 16 then 1
  else 65535 / (((1 <<< bitdepth) - 1 : Nat) : ℚ)

/-- Success or failure of each external creation call made by
`CD3D11Render::Init` (d3d11render.cpp:45-121) and its helper
`CreateShaders`/`CreateSampler`. -/
structure InitEnv where
  deviceOk : Bool
  textureOk : Bool
  srvOk : Bool
  vsCompileOk : Bool
  vsCreateOk : Bool
  psCompileOk : Bool
  psCreateOk : Bool
  inputLayoutOk : Bool
  vertexBufferOk : Bool
  samplerOk : Bool
deriving DecidableEq

/-- Success of `CD3D11Render::CreateShaders` (d3d11render.cpp:123-209): the
vertex-shader compile and creation, pixel-shader compile and creation, input
layout and vertex buffer creations must all succeed. -/
def createShadersOk (e : InitEnv) : Bool :=
  e.vsCompileOk && e.vsCreateOk && e.psCompileOk && e.psCreateOk &&
    e.inputLayoutOk && e.vertexBufferOk

/-- Outcome of `CD3D11Render::Init`: its return value, whether the event
`m_evt` was created (`CreateEvent`, d3d11render.cpp:115) and whether the
worker thread `m_thrd` was started (d3d11render.cpp:116-119). -/
structure InitResult where
  ok : Bool
  evtCreated : Bool
  thrdStarted : Bool
deriving DecidableEq

/-- Control flow of `CD3D11Render::Init` (d3d11render.cpp:45-121): each
failed creation step returns `false` immediately; the event is created and
the worker thread started only after every step has succeeded. (The
`Resize` call at d3d11render.cpp:102 has its HRESULT discarded and cannot
fail `Init`; it is not part of this outcome.) -/
def init (e : InitEnv) : InitResult :=
  if !e.deviceOk then ⟨false, false, false⟩
  else if !e.textureOk then ⟨false, false, false⟩
  else if !e.srvOk then ⟨false, false, false⟩
  else if !(createShadersOk e) then ⟨false, false, false⟩
  else if !e.samplerOk then ⟨false, false, false⟩
  else ⟨true, true, true⟩

/-- Discriminator for the resize-application action. -/
def Action.isResized : Action → Bool
  | Action.resized _ _ _ => true
  | _ => false

/-! Supporting lemmas (shared; not claim theorems). -/

/-- In-range packed registers are plain positional sums. -/
theorem packResize_eq {w h : Nat} (hw : w ≤ 32767) (hh : h ≤ 32767) :
    packResize w h = 2147483648 + 65536 * w + h := by
  have h1 : (w <<< 16) % U32 = 65536 * w := by
    have hlt : w * 2 ^ 16 < U32 := by
      have : U32 = 4294967296 := rfl
      omega
    rw [Nat.shiftLeft_eq, Nat.mod_eq_of_lt hlt]
    ring
  have h2 : h % U32 = h := Nat.mod_eq_of_lt (by show h < U32; have : U32 = 4294967296 := rfl; omega)
  rw [packResize, h1, h2, Nat.or_assoc]
  have hor1 : 65536 * w ||| h = 65536 * w + h := by
    rw [show (65536 : Nat) * w = 2 ^ 16 * w by norm_num,
      ← Nat.mul_add_lt_is_or (show h < 2 ^ 16 by omega) w]
  have hor2 : (0x80000000 : Nat) ||| (65536 * w + h) = 2147483648 + (65536 * w + h) := by
    rw [show (0x80000000 : Nat) = 2 ^ 31 * 1 by norm_num,
      ← Nat.mul_add_lt_is_or (show 65536 * w + h < 2 ^ 31 by omega) 1]
  rw [hor1, hor2]
  omega

/-- Width decoding inverts in-range packing. -/
theorem resizeW_packResize {w h : Nat} (hw : w ≤ 32767) (hh : h ≤ 32767) :
    resizeW (packResize w h) = w := by
  rw [resizeW, packResize_eq hw hh, Nat.shiftRight_eq_div_pow,
    show (0x7fff : Nat) = 2 ^ 15 - 1 by norm_num, Nat.and_pow_two_sub_one_eq_mod]
  have e16 : (2 : Nat) ^ 16 = 65536 := by norm_num
  have e15 : (2 : Nat) ^ 15 = 32768 := by norm_num
  rw [e16, e15]
  omega

/-- Height decoding inverts in-range packing. -/
theorem resizeH_packResize {w h : Nat} (hw : w ≤ 32767) (hh : h ≤ 32767) :
    resizeH (packResize w h) = h := by
  rw [resizeH, packResize_eq hw hh,
    show (0x7fff : Nat) = 2 ^ 15 - 1 by norm_num, Nat.and_pow_two_sub_one_eq_mod]
  have e15 : (2 : Nat) ^ 15 = 32768 := by norm_num
  rw [e15]
  omega

/-- In-range packing sets the pending bit. -/
theorem resizePending_packResize {w h : Nat} (hw : w ≤ 32767) (hh : h ≤ 32767) :
    resizePending (packResize w h) = true := by
  rw [resizePending, packResize_eq hw hh,
    show (0x80000000 : Nat) = 2 ^ 31 by norm_num, Nat.and_two_pow]
  have ht : (2 ^ 31 + 65536 * w + h).testBit 31 = true := by
    rw [Nat.testBit_to_div_mod, decide_eq_true_eq]
    have e31 : (2 : Nat) ^ 31 = 2147483648 := by norm_num
    rw [e31]
    omega
  rw [ht]
  decide

/-- Decoded widths and heights never exceed 32767. -/
theorem resizeW_le (val : Nat) : resizeW val ≤ 32767 := Nat.and_le_right

theorem resizeH_le (val : Nat) : resizeH val ≤ 32767 := Nat.and_le_right

/-- The notification only writes the register. -/
theorem notifyResize_windowWidth (s : RenderState) (cx cy : Nat) :
    (notifyResize s cx cy).windowWidth = s.windowWidth := by
  rw [notifyResize]
  split <;> rfl

theorem notifyResize_windowHeight (s : RenderState) (cx cy : Nat) :
    (notifyResize s cx cy).windowHeight = s.windowHeight := by
  rw [notifyResize]
  split <;> rfl

/-- Which calls pass the guard depends only on the recorded window size. -/
theorem effectiveCalls_congr {s t : RenderState} (l : List (Nat × Nat))
    (hww : s.windowWidth = t.windowWidth) (hwh : s.windowHeight = t.windowHeight) :
    effectiveCalls s l = effectiveCalls t l := by
  rw [effectiveCalls, effectiveCalls, hww, hwh]

/-- The register after a burst of notifications is the last-written packed
value of the guard-passing calls (or the old register if none passed). -/
theorem notifySeq_resize (s : RenderState) (calls : List (Nat × Nat)) :
    (notifySeq s calls).resize =
      (effectiveCalls s calls).foldl (fun _ c => packResize c.1 c.2) s.resize := by
  induction calls generalizing s with
  | nil => rfl
  | cons c rest ih =>
    have hstep : notifySeq s (c :: rest) = notifySeq (notifyResize s c.1 c.2) rest := rfl
    have hcongr : effectiveCalls (notifyResize s c.1 c.2) rest = effectiveCalls s rest :=
      effectiveCalls_congr rest (notifyResize_windowWidth s c.1 c.2)
        (notifyResize_windowHeight s c.1 c.2)
    by_cases hg : s.windowWidth ≠ (c.1 : Int) ∨ s.windowHeight ≠ (c.2 : Int)
    · have hn : notifyResize s c.1 c.2 = { s with resize := packResize c.1 c.2 } := by
        rw [notifyResize, if_pos hg]
      have heff : effectiveCalls s (c :: rest) = c :: effectiveCalls s rest := by
        rw [effectiveCalls, List.filter_cons_of_pos (by simpa using hg)]
        rfl
      rw [hstep, ih, hcongr, hn, heff]
      rfl
    · have hn : notifyResize s c.1 c.2 = s := by
        rw [notifyResize, if_neg hg]
      have heff : effectiveCalls s (c :: rest) = effectiveCalls s rest := by
        rw [effectiveCalls, List.filter_cons_of_neg (by simpa using hg)]
        rfl
      rw [hstep, ih, hcongr, hn, heff]

/-- A last-writer-wins fold is determined by the last element. -/
theorem foldl_packResize_getLast (l : List (Nat × Nat)) (c : Nat × Nat) (r : Nat)
    (h : l.getLast? = some c) :
    l.foldl (fun _ d => packResize d.1 d.2) r = packResize c.1 c.2 := by
  induction l generalizing r with
  | nil => cases h
  | cons d rest ih =>
    cases rest with
    | nil =>
      simp only [List.getLast?_singleton, Option.some.injEq] at h
      rw [← h]
      rfl
    | cons e tail =>
      rw [List.getLast?_cons_cons] at h
      rw [List.foldl_cons]
      exact ih _ h

/-- The second component of `applyResize` records overall success. -/
theorem applyResize_snd (env : IterEnv) (s : RenderState) (w h : Int) :
    (applyResize env s w h).2 = (env.getDescOk && env.resizeBuffersOk) := by
  rcases env with ⟨gd, rb, _, _, _, _⟩
  cases gd <;> cases rb <;> rfl

/-- `applyResize` never touches the register. -/
theorem applyResize_resize (env : IterEnv) (s : RenderState) (w h : Int) :
    (applyResize env s w h).1.resize = s.resize := by
  rcases env with ⟨gd, rb, _, _, _, _⟩
  cases gd <;> cases rb <;> rfl

/-- `applyResize` never touches the frame counters. -/
theorem applyResize_counters (env : IterEnv) (s : RenderState) (w h : Int) :
    (applyResize env s w h).1.nFrame = s.nFrame ∧
      (applyResize env s w h).1.totalFrame = s.totalFrame := by
  rcases env with ⟨gd, rb, _, _, _, _⟩
  cases gd <;> cases rb <;> exact ⟨rfl, rfl⟩

/-- On a failed swapchain call, `applyResize` reports failure and leaves the
viewport untouched. -/
theorem applyResize_fail (env : IterEnv) (s : RenderState) (w h : Int)
    (hf : env.getDescOk = false ∨ env.resizeBuffersOk = false) :
    (applyResize env s w h).2 = false ∧ (applyResize env s w h).1.viewport = s.viewport := by
  rcases env with ⟨gd, rb, _, _, _, _⟩
  rcases hf with hf | hf <;> subst hf
  · exact ⟨rfl, rfl⟩
  · cases gd <;> exact ⟨rfl, rfl⟩

/-- Pending branch of the loop body. -/
theorem loopIter_pending (env : IterEnv) (s : RenderState)
    (h : resizePending s.resize = true) :
    loopIter env s =
      ((applyResize env { s with resize := 0 } (resizeW s.resize : Int) (resizeH s.resize : Int)).1,
        [Action.resized (resizeW s.resize) (resizeH s.resize)
          (applyResize env { s with resize := 0 } (resizeW s.resize : Int) (resizeH s.resize : Int)).2]) := by
  rw [loopIter, if_pos h]

/-- Without a pending resize the iteration never applies one. -/
theorem loopIter_not_pending_actions (env : IterEnv) (s : RenderState)
    (h : resizePending s.resize = false) :
    ((loopIter env s).2.all fun a => !a.isResized) = true := by
  rw [loopIter, if_neg (by rw [h]; exact Bool.false_ne_true)]
  rcases env with ⟨gd, rb, mk, pk, rk, pr⟩
  cases mk <;> cases pk <;> cases rk <;> cases pr <;> rfl

/-- Truncation toward zero agrees with the floor on nonnegative values. -/
theorem cIntTrunc_eq_floor (q : ℚ) (h : 0 ≤ q) : cIntTrunc q = ⌊q⌋ := by
  rw [Rat.floor_def, cIntTrunc, Int.tdiv_eq_ediv (Rat.num_nonneg.mpr h) (by positivity)]

theorem cppMin_le_left (a b : ℚ) : cppMin a b ≤ a := by
  unfold cppMin
  split
  · exact le_refl a
  · exact le_of_not_lt (by assumption)

theorem cppMin_le_right (a b : ℚ) : cppMin a b ≤ b := by
  unfold cppMin
  split
  · exact le_of_lt (by assumption)
  · exact le_refl b

theorem cppMin_nonneg {a b : ℚ} (ha : 0 ≤ a) (hb : 0 ≤ b) : 0 ≤ cppMin a b := by
  unfold cppMin
  split
  · exact ha
  · exact hb

/-- Map-failure branch of the loop body. -/
theorem loopIter_map_fail (env : IterEnv) (s : RenderState)
    (hp : ¬ resizePending s.resize = true) (hm : env.mapOk = false) :
    loopIter env s = (s, [Action.mapped false, Action.waited]) := by
  rcases env with ⟨gd, rb, mk, pk, rk, pr⟩
  cases mk
  · rw [loopIter, if_neg hp]
    rfl
  · exact Bool.noConfusion hm

/-- Pull-failure branch of the loop body. -/
theorem loopIter_pull_fail (env : IterEnv) (s : RenderState)
    (hp : ¬ resizePending s.resize = true) (hm : env.mapOk = true)
    (hpl : env.pullOk = false) :
    loopIter env s = (s, [Action.mapped true, Action.pulled false, Action.waited]) := by
  rcases env with ⟨gd, rb, mk, pk, rk, pr⟩
  cases mk
  · exact Bool.noConfusion hm
  · cases pk
    · rw [loopIter, if_neg hp]
      rfl
    · exact Bool.noConfusion hpl

/-- Render-target-view-failure branch of the loop body. -/
theorem loopIter_rtv_fail (env : IterEnv) (s : RenderState)
    (hp : ¬ resizePending s.resize = true) (hm : env.mapOk = true)
    (hpl : env.pullOk = true) (hr : env.rtvOk = false) :
    loopIter env s = (s, [Action.mapped true, Action.pulled true]) := by
  rcases env with ⟨gd, rb, mk, pk, rk, pr⟩
  cases mk
  · exact Bool.noConfusion hm
  · cases pk
    · exact Bool.noConfusion hpl
    · cases rk
      · rw [loopIter, if_neg hp]
        rfl
      · exact Bool.noConfusion hr

/-- Present-failure branch of the loop body. -/
theorem loopIter_present_fail (env : IterEnv) (s : RenderState)
    (hp : ¬ resizePending s.resize = true) (hm : env.mapOk = true)
    (hpl : env.pullOk = true) (hr : env.rtvOk = true) (hpr : env.presentOk = false) :
    loopIter env s =
      (s, [Action.mapped true, Action.pulled true, Action.drew, Action.presented false]) := by
  rcases env with ⟨gd, rb, mk, pk, rk, pr⟩
  cases mk
  · exact Bool.noConfusion hm
  · cases pk
    · exact Bool.noConfusion hpl
    · cases rk
      · exact Bool.noConfusion hr
      · cases pr
        · rw [loopIter, if_neg hp]
          rfl
        · exact Bool.noConfusion hpr

/-- Fully successful branch of the loop body. -/
theorem loopIter_present_ok (env : IterEnv) (s : RenderState)
    (hp : ¬ resizePending s.resize = true) (hm : env.mapOk = true)
    (hpl : env.pullOk = true) (hr : env.rtvOk = true) (hpr : env.presentOk = true) :
    loopIter env s =
      ({ s with nFrame := (s.nFrame + 1) % U32, totalFrame := (s.totalFrame + 1) % U32 },
        [Action.mapped true, Action.pulled true, Action.drew, Action.presented true]) := by
  rcases env with ⟨gd, rb, mk, pk, rk, pr⟩
  cases mk
  · exact Bool.noConfusion hm
  · cases pk
    · exact Bool.noConfusion hpl
    · cases rk
      · exact Bool.noConfusion hr
      · cases pr
        · exact Bool.noConfusion hpr
        · rw [loopIter, if_neg hp]
          rfl

/-- Concrete evaluation of the viewport computation on the spec's example. -/
theorem computeViewport_1280_960_1920_1080 :
    computeViewport 1280 960 1920 1080 = ⟨240, 0, 1440, 1080⟩ := by
  have hmin : cppMin ((1920 : ℚ) / 1280) ((1080 : ℚ) / 960) = 9 / 8 := by
    rw [cppMin, if_neg (by norm_num)]
    norm_num
  have hW : cIntTrunc ((1280 : ℚ) * (9 / 8)) = 1440 := by
    have : ((1280 : ℚ) * (9 / 8)) = ((1440 : Int) : ℚ) := by norm_num
    rw [this, cIntTrunc_eq_floor _ (by norm_num), Int.floor_intCast]
  have hH : cIntTrunc ((960 : ℚ) * (9 / 8)) = 1080 := by
    have : ((960 : ℚ) * (9 / 8)) = ((1080 : Int) : ℚ) := by norm_num
    rw [this, cIntTrunc_eq_floor _ (by norm_num), Int.floor_intCast]
  show Viewport.mk _ _ _ _ = _
  rw [show ((1280 : Int) : ℚ) = 1280 by norm_num, show ((960 : Int) : ℚ) = 960 by norm_num,
    show ((1920 : Int) : ℚ) = 1920 by norm_num, show ((1080 : Int) : ℚ) = 1080 by norm_num,
    hmin, hW, hH]
  decide

/-! Claim theorems. -/

/-- C10: for every width and height up to 32767, decoding the packed register
value `0x80000000 | (w << 16) | h` as `((val >> 16) & 0x7fff, val & 0x7fff)`
returns exactly `(w, h)` and the pending bit is set; for `w ≥ 32768` or
`h ≥ 32768` the encoding does not round-trip. -/
theorem resize_register_roundtrip (w h : Nat) (hw : w ≤ 32767) (hh : h ≤ 32767) :
    resizeW (packResize w h) = w ∧ resizeH (packResize w h) = h ∧
    resizePending (packResize w h) = true ∧
    ∀ w2 h2 : Nat, 32768 ≤ w2 ∨ 32768 ≤ h2 →
      ¬(resizeW (packResize w2 h2) = w2 ∧ resizeH (packResize w2 h2) = h2) := by
  refine ⟨resizeW_packResize hw hh, resizeH_packResize hw hh,
    resizePending_packResize hw hh, ?_⟩
  intro w2 h2 hor hrt
  rcases hor with hor | hor
  · have := resizeW_le (packResize w2 h2)
    omega
  · have := resizeH_le (packResize w2 h2)
    omega

/-- Witness for C10 at width 1920, height 1080 (and failure at width 32768). -/
theorem resize_register_roundtrip_witness :
    resizeW (packResize 1920 1080) = 1920 ∧
    ¬(resizeW (packResize 32768 0) = 32768 ∧ resizeH (packResize 32768 0) = 0) := by
  have H := resize_register_roundtrip 1920 1080 (by decide) (by decide)
  exact ⟨H.1, H.2.2.2 32768 0 (Or.inl (by decide)) ⟩

/-- C1 counterexample: the claim quantifies over every sequence of N ≥ 1
notification calls, but a call whose observed client size equals the recorded
`m_windowWidth`/`m_windowHeight` is dropped by the changed-size guard. Here a
single notification observing 640 × 480 on a state whose recorded window size
is already 640 × 480 stores nothing, and the next loop iteration pulls and
presents a frame instead of applying any resize — the last submitted pair is
never applied via `Resize(int, int)`. -/
theorem resize_coalescing_claim_counterexample :
    notifySeq ⟨640, 480, 640, 480, none, 0, 0, 0⟩ [(640, 480)] =
      ⟨640, 480, 640, 480, none, 0, 0, 0⟩ ∧
    (loopIter ⟨true, true, true, true, true, true⟩
        (notifySeq ⟨640, 480, 640, 480, none, 0, 0, 0⟩ [(640, 480)])).2 =
      [Action.mapped true, Action.pulled true, Action.drew, Action.presented true] := by
  constructor
  · decide
  · decide

/-- C1 (amended): the changed-size guard of `CD3D11Render::Resize()` drops
notification calls whose observed client size equals the recorded window
size. For every burst of notifications of which at least one passes the
guard (with in-range dimensions), the loop's next iteration applies, via
`Resize(int, int)`, exactly the dimensions of the last guard-passing call,
doing nothing else in that iteration; the register's pending flag is clear
afterwards, and a subsequent iteration applies no resize — nothing is
applied twice. -/
theorem resize_coalescing_amended (s : RenderState) (calls : List (Nat × Nat)) (w h : Nat)
    (hlast : (effectiveCalls s calls).getLast? = some (w, h))
    (hw : w ≤ 32767) (hh : h ≤ 32767) (env : IterEnv) :
    resizePending (notifySeq s calls).resize = true ∧
    (loopIter env (notifySeq s calls)).2 =
      [Action.resized w h (env.getDescOk && env.resizeBuffersOk)] ∧
    (loopIter env (notifySeq s calls)).1.resize = 0 ∧
    ∀ env2 : IterEnv,
      ((loopIter env2 (loopIter env (notifySeq s calls)).1).2.all fun a => !a.isResized) = true := by
  have hreg : (notifySeq s calls).resize = packResize w h := by
    rw [notifySeq_resize, foldl_packResize_getLast _ _ _ hlast]
  have hpend : resizePending (notifySeq s calls).resize = true := by
    rw [hreg]
    exact resizePending_packResize hw hh
  have hiter := loopIter_pending env (notifySeq s calls) hpend
  refine ⟨hpend, ?_, ?_, ?_⟩
  · rw [hiter, applyResize_snd, hreg, resizeW_packResize hw hh, resizeH_packResize hw hh]
  · rw [hiter, applyResize_resize]
  · intro env2
    apply loopIter_not_pending_actions
    rw [hiter, applyResize_resize]
    show resizePending 0 = false
    rfl

/-- Witness for C1 (amended): two effective notifications; the second wins. -/
theorem resize_coalescing_amended_witness :
    (loopIter ⟨true, true, true, true, true, true⟩
        (notifySeq ⟨640, 480, 640, 480, none, 0, 0, 0⟩ [(800, 600), (1024, 768)])).2 =
      [Action.resized 1024 768 true] ∧
    (loopIter ⟨true, true, true, true, true, true⟩
        (notifySeq ⟨640, 480, 640, 480, none, 0, 0, 0⟩ [(800, 600), (1024, 768)])).1.resize = 0 := by
  have H := resize_coalescing_amended ⟨640, 480, 640, 480, none, 0, 0, 0⟩
    [(800, 600), (1024, 768)] 1024 768 (by decide) (by decide) (by decide)
    ⟨true, true, true, true, true, true⟩
  exact ⟨H.2.1, H.2.2.1⟩

/-- C5: whenever the loop begins an iteration with the register's pending
flag set, it applies the resize with the decoded dimensions and restarts,
without mapping, pulling, drawing or presenting in that iteration; the
register is cleared. -/
theorem resize_priority (env : IterEnv) (s : RenderState)
    (h : resizePending s.resize = true) :
    (loopIter env s).2 =
      [Action.resized (resizeW s.resize) (resizeH s.resize)
        (env.getDescOk && env.resizeBuffersOk)] ∧
    (loopIter env s).1.resize = 0 ∧
    (∀ b, Action.mapped b ∉ (loopIter env s).2) ∧
    (∀ b, Action.pulled b ∉ (loopIter env s).2) ∧
    Action.drew ∉ (loopIter env s).2 ∧
    (∀ b, Action.presented b ∉ (loopIter env s).2) := by
  have hiter := loopIter_pending env s h
  have hact : (loopIter env s).2 =
      [Action.resized (resizeW s.resize) (resizeH s.resize)
        (env.getDescOk && env.resizeBuffersOk)] := by
    rw [hiter, applyResize_snd]
  refine ⟨hact, ?_, ?_, ?_, ?_, ?_⟩
  · rw [hiter, applyResize_resize]
  · intro b
    rw [hact]
    simp
  · intro b
    rw [hact]
    simp
  · rw [hact]
    simp
  · intro b
    rw [hact]
    simp

/-- Witness for C5: a pending 800 × 600 request is applied and nothing else
happens in that iteration. -/
theorem resize_priority_witness :
    (loopIter ⟨true, true, true, true, true, true⟩
        ⟨640, 480, 640, 480, none, packResize 800 600, 0, 0⟩).2 =
      [Action.resized 800 600 true] ∧
    (loopIter ⟨true, true, true, true, true, true⟩
        ⟨640, 480, 640, 480, none, packResize 800 600, 0, 0⟩).1.resize = 0 := by
  have H := resize_priority ⟨true, true, true, true, true, true⟩
    ⟨640, 480, 640, 480, none, packResize 800 600, 0, 0⟩ (by decide)
  refine ⟨?_, H.2.1⟩
  rw [H.1]
  decide

/-- C7: in every iteration in which mapping the texture or pulling a frame
fails (and no resize is pending), the state — in particular both frame
counters — is unchanged, nothing is drawn or presented, the iteration's last
action is blocking on the gate event, and the iteration yields a successor
state rather than an error, so the failure never escapes the loop. -/
theorem transient_pull_failure (env : IterEnv) (s : RenderState)
    (hp : resizePending s.resize = false)
    (hf : env.mapOk = false ∨ env.pullOk = false) :
    (loopIter env s).1 = s ∧
    (loopIter env s).2.getLast? = some Action.waited ∧
    Action.drew ∉ (loopIter env s).2 ∧
    (∀ b, Action.presented b ∉ (loopIter env s).2) ∧
    (loopIter env s).1.nFrame = s.nFrame ∧
    (loopIter env s).1.totalFrame = s.totalFrame := by
  have hni : ¬ resizePending s.resize = true := by
    rw [hp]
    exact Bool.false_ne_true
  rcases hf with hf | hf
  · rw [loopIter_map_fail env s hni hf]
    exact ⟨rfl, by simp, by simp, fun b => by simp, rfl, rfl⟩
  · cases hm : env.mapOk
    · rw [loopIter_map_fail env s hni hm]
      exact ⟨rfl, by simp, by simp, fun b => by simp, rfl, rfl⟩
    · rw [loopIter_pull_fail env s hni hm hf]
      exact ⟨rfl, by simp, by simp, fun b => by simp, rfl, rfl⟩

/-- Witness for C7 at a concrete state with a failing pull. -/
theorem transient_pull_failure_witness :
    (loopIter ⟨true, true, true, false, true, true⟩
        ⟨640, 480, 640, 480, none, 0, 3, 17⟩).1 = ⟨640, 480, 640, 480, none, 0, 3, 17⟩ ∧
    (loopIter ⟨true, true, true, false, true, true⟩
        ⟨640, 480, 640, 480, none, 0, 3, 17⟩).2.getLast? = some Action.waited := by
  have H := transient_pull_failure ⟨true, true, true, false, true, true⟩
    ⟨640, 480, 640, 480, none, 0, 3, 17⟩ (by decide) (Or.inr rfl)
  exact ⟨H.1, H.2.1⟩

/-- C8: in every iteration that maps and pulls successfully (no resize
pending), both frame counters are incremented exactly once when `Present`
succeeds, and a failure to obtain the render-target view or a present
failure leaves the whole state — in particular both counters — unchanged,
the iteration still yielding a successor state (the loop is not
terminated). -/
theorem present_gated_counters (env : IterEnv) (s : RenderState)
    (hp : resizePending s.resize = false)
    (hm : env.mapOk = true) (hpl : env.pullOk = true) :
    (env.rtvOk = true → env.presentOk = true →
      (loopIter env s).1.nFrame = (s.nFrame + 1) % U32 ∧
      (loopIter env s).1.totalFrame = (s.totalFrame + 1) % U32 ∧
      Action.presented true ∈ (loopIter env s).2) ∧
    (env.rtvOk = false ∨ env.presentOk = false →
      (loopIter env s).1 = s ∧
      (loopIter env s).1.nFrame = s.nFrame ∧
      (loopIter env s).1.totalFrame = s.totalFrame) := by
  have hni : ¬ resizePending s.resize = true := by
    rw [hp]
    exact Bool.false_ne_true
  constructor
  · intro hr hpr
    rw [loopIter_present_ok env s hni hm hpl hr hpr]
    exact ⟨rfl, rfl, by simp⟩
  · intro hf
    rcases hf with hf | hf
    · rw [loopIter_rtv_fail env s hni hm hpl hf]
      exact ⟨rfl, rfl, rfl⟩
    · cases hr : env.rtvOk
      · rw [loopIter_rtv_fail env s hni hm hpl hr]
        exact ⟨rfl, rfl, rfl⟩
      · rw [loopIter_present_fail env s hni hm hpl hr hf]
        exact ⟨rfl, rfl, rfl⟩

/-- Witness for C8: counters advance exactly when `Present` succeeds. -/
theorem present_gated_counters_witness :
    (loopIter ⟨true, true, true, true, true, true⟩
        ⟨640, 480, 640, 480, none, 0, 3, 17⟩).1.nFrame = 4 ∧
    (loopIter ⟨true, true, true, true, true, true⟩
        ⟨640, 480, 640, 480, none, 0, 3, 17⟩).1.totalFrame = 18 := by
  have H := present_gated_counters ⟨true, true, true, true, true, true⟩
    ⟨640, 480, 640, 480, none, 0, 3, 17⟩ (by decide) rfl rfl
  have H1 := H.1 rfl rfl
  refine ⟨?_, ?_⟩
  · rw [H1.1]
    decide
  · rw [H1.2.1]
    decide

/-- C4 counterexample: with a pending 800 × 600 resize whose swapchain
`GetDesc` fails, the loop discards the failing HRESULT of
`Resize(int, int)` and the very next iteration pulls, draws and presents a
frame (incrementing the lifetime counter) exactly as if the resize had
succeeded — the render loop does not stop. -/
theorem fatal_at_resize_claim_counterexample :
    (loopIter ⟨false, true, true, true, true, true⟩
        ⟨640, 480, 640, 480, none, packResize 800 600, 0, 0⟩).2 =
      [Action.resized 800 600 false] ∧
    (loopIter ⟨true, true, true, true, true, true⟩
        (loopIter ⟨false, true, true, true, true, true⟩
          ⟨640, 480, 640, 480, none, packResize 800 600, 0, 0⟩).1).2 =
      [Action.mapped true, Action.pulled true, Action.drew, Action.presented true] ∧
    (loopIter ⟨true, true, true, true, true, true⟩
        (loopIter ⟨false, true, true, true, true, true⟩
          ⟨640, 480, 640, 480, none, packResize 800 600, 0, 0⟩).1).1.totalFrame = 1 := by
  refine ⟨by decide, by decide, by decide⟩

/-- C4 (amended): a swapchain failure inside `Resize(int, int)` is surfaced
distinctly to its caller — the method returns the failing HRESULT without
setting a viewport — but the render loop discards that return value: the
register is cleared anyway and any subsequent iteration whose external calls
succeed pulls, draws and presents as if the resize had succeeded. -/
theorem fatal_at_resize_amended (env env2 : IterEnv) (s : RenderState)
    (hpend : resizePending s.resize = true)
    (hfail : env.getDescOk = false ∨ env.resizeBuffersOk = false)
    (h2m : env2.mapOk = true) (h2p : env2.pullOk = true)
    (h2r : env2.rtvOk = true) (h2pr : env2.presentOk = true) :
    (loopIter env s).2 = [Action.resized (resizeW s.resize) (resizeH s.resize) false] ∧
    (loopIter env s).1.viewport = s.viewport ∧
    (loopIter env s).1.resize = 0 ∧
    (loopIter env2 (loopIter env s).1).2 =
      [Action.mapped true, Action.pulled true, Action.drew, Action.presented true] ∧
    (loopIter env2 (loopIter env s).1).1.totalFrame =
      ((loopIter env s).1.totalFrame + 1) % U32 := by
  have hiter := loopIter_pending env s hpend
  have hfl := applyResize_fail env { s with resize := 0 }
    (resizeW s.resize : Int) (resizeH s.resize : Int) hfail
  have hnp : ¬ resizePending (loopIter env s).1.resize = true := by
    rw [hiter, applyResize_resize]
    show ¬ resizePending 0 = true
    decide
  have He := loopIter_present_ok env2 (loopIter env s).1 hnp h2m h2p h2r h2pr
  refine ⟨?_, ?_, ?_, ?_, ?_⟩
  · rw [hiter, hfl.1]
  · rw [hiter]
    exact hfl.2
  · rw [hiter, applyResize_resize]
  · rw [He]
  · rw [He]

/-- Witness for C4 (amended) at the counterexample's concrete input. -/
theorem fatal_at_resize_amended_witness :
    (loopIter ⟨false, true, true, true, true, true⟩
        ⟨640, 480, 640, 480, none, packResize 800 600, 0, 0⟩).1.viewport = none ∧
    (loopIter ⟨true, true, true, true, true, true⟩
        (loopIter ⟨false, true, true, true, true, true⟩
          ⟨640, 480, 640, 480, none, packResize 800 600, 0, 0⟩).1).2 =
      [Action.mapped true, Action.pulled true, Action.drew, Action.presented true] := by
  have H := fatal_at_resize_amended ⟨false, true, true, true, true, true⟩
    ⟨true, true, true, true, true, true⟩
    ⟨640, 480, 640, 480, none, packResize 800 600, 0, 0⟩
    (by decide) (Or.inl rfl) rfl rfl rfl rfl
  exact ⟨H.2.1, H.2.2.2.1⟩

/-- C9: if any creation sub-step of `Init` fails — device/swapchain, texture,
shader-resource view, shader compilation and creation (including the vertex
buffer created in `CreateShaders`), or sampler — then `Init` returns false,
the gate event is never created and the worker thread is never started, so
the loop (and hence any pull or present) never runs for that session. -/
theorem init_failure_no_thread (e : InitEnv)
    (h : e.deviceOk = false ∨ e.textureOk = false ∨ e.srvOk = false ∨
      createShadersOk e = false ∨ e.samplerOk = false) :
    init e = ⟨false, false, false⟩ ∧ (init e).ok = false ∧
    (init e).evtCreated = false ∧ (init e).thrdStarted = false := by
  have hinit : init e = ⟨false, false, false⟩ := by
    rcases e with ⟨d, t, sv, b1, b2, b3, b4, b5, b6, sm⟩
    cases d <;> cases t <;> cases sv <;> cases sm <;>
      simp_all [init, createShadersOk]
  exact ⟨hinit, by rw [hinit], by rw [hinit], by rw [hinit]⟩

/-- Witness for C9: failed device creation with every later step succeeding. -/
theorem init_failure_no_thread_witness :
    init ⟨false, true, true, true, true, true, true, true, true, true⟩ =
      ⟨false, false, false⟩ :=
  (init_failure_no_thread ⟨false, true, true, true, true, true, true, true, true, true⟩
    (Or.inl rfl)).1

/-- C6 counterexample: the code's threshold test is `diff > 500`, not
`diff < 500`. When exactly 500 ms have elapsed — which is not "less than
500 ms" — the claim says a sample is returned, but `GetFrameRate` returns
nothing and leaves the state unchanged. -/
theorem frame_rate_claim_counterexample :
    ¬ (500 < 500) ∧ getFrameRate ⟨0, 7, 42⟩ 500 = (none, ⟨0, 7, 42⟩) := by
  constructor
  · decide
  · decide

/-- C6 (amended): `GetFrameRate` returns nothing and leaves all counter
state unchanged when the elapsed time is at most 500 ms (rather than
strictly less than 500 ms); when more than 500 ms have elapsed it returns
the window frame count, the elapsed milliseconds and the lifetime total,
resets the window start to now and the window count to 0, and never resets
the lifetime total. Two calls at most 500 ms apart return a value on at
most one of them. -/
theorem frame_rate_amended (s : RateState) (tick : Nat)
    (hn : s.nTick ≤ tick) (ht : tick < U32) :
    (tick - s.nTick ≤ 500 → getFrameRate s tick = (none, s)) ∧
    (500 < tick - s.nTick →
      getFrameRate s tick =
        (some (s.nFrame, tick - s.nTick, s.totalFrame), ⟨tick, 0, s.totalFrame⟩)) ∧
    (∀ tick2 : Nat, tick ≤ tick2 → tick2 < U32 → tick2 - tick ≤ 500 →
      ¬((getFrameRate s tick).1 ≠ none ∧
        (getFrameRate (getFrameRate s tick).2 tick2).1 ≠ none)) := by
  have hU : U32 = 4294967296 := rfl
  have ht' : tick < 4294967296 := hU ▸ ht
  have hd : u32sub tick s.nTick = tick - s.nTick := by
    simp only [u32sub, hU]
    omega
  have hmod : tick % U32 = tick := by
    rw [hU]
    omega
  refine ⟨?_, ?_, ?_⟩
  · intro hle
    simp only [getFrameRate, hd]
    rw [if_neg (by omega)]
  · intro hgt
    simp only [getFrameRate, hd, hmod]
    rw [if_pos (by omega)]
  · intro tick2 h12 ht2 hle2 hcontra
    have ht2' : tick2 < 4294967296 := hU ▸ ht2
    by_cases hgt : 500 < tick - s.nTick
    · have h1 : getFrameRate s tick =
          (some (s.nFrame, tick - s.nTick, s.totalFrame), ⟨tick, 0, s.totalFrame⟩) := by
        simp only [getFrameRate, hd, hmod]
        rw [if_pos (by omega)]
      have hd2 : u32sub tick2 tick = tick2 - tick := by
        simp only [u32sub, hU]
        omega
      have h2 : getFrameRate ⟨tick, 0, s.totalFrame⟩ tick2 =
          (none, ⟨tick, 0, s.totalFrame⟩) := by
        simp only [getFrameRate]
        show (if u32sub tick2 tick > 500 then _ else _) = _
        rw [hd2, if_neg (by omega)]
      rw [h1] at hcontra
      rw [h2] at hcontra
      exact hcontra.2 rfl
    · have h1 : getFrameRate s tick = (none, s) := by
        simp only [getFrameRate, hd]
        rw [if_neg (by omega)]
      rw [h1] at hcontra
      exact hcontra.1 rfl

/-- Witness for C6 (amended): a sample 501 ms after the window start. -/
theorem frame_rate_amended_witness :
    getFrameRate ⟨0, 7, 42⟩ 501 = (some (7, 501, 42), ⟨501, 0, 42⟩) :=
  (frame_rate_amended ⟨0, 7, 42⟩ 501 (by decide) (by decide)).2.1 (by decide)

/-- C3 counterexample: the code tests `m_bitdepth >= 16`, not
`m_bitdepth == 16`. At bit depth 17 the claim prescribes
`65535 / ((1 << 17) - 1)`, which is not 1, but the compiled SCALE is 1.0. -/
theorem shader_scale_claim_counterexample :
    shaderScale 17 = 1 ∧ specShaderScale 17 = 65535 / 131071 ∧
    specShaderScale 17 ≠ 1 ∧ shaderScale 17 ≠ specShaderScale 17 := by
  have h1 : shaderScale 17 = 1 := by
    rw [shaderScale, if_pos]
    decide
  have h2 : specShaderScale 17 = 65535 / 131071 := by
    rw [specShaderScale, if_neg (by decide),
      show (1 <<< 17 - 1 : Nat) = 131071 from by decide]
    norm_num
  refine ⟨h1, h2, ?_, ?_⟩
  · rw [h2]
    norm_num
  · rw [h1, h2]
    norm_num

/-- C3 (amended): the SCALE constant compiled into the pixel shader is 1.0
when the bit depth is at most 8 or at least 16 (the code's test is
`>= 16`, agreeing with the claim's `== 16` on every bit depth a camera can
report, i.e. up to 16), and `65535 / ((1 << bitDepth) - 1)` otherwise; in
particular bit depth 8 gives 1.0, 10 gives 65535/1023, 12 gives 65535/4095
and 16 gives 1.0. -/
theorem shader_scale_amended :
    shaderScale 8 = 1 ∧ shaderScale 10 = 65535 / 1023 ∧
    shaderScale 12 = 65535 / 4095 ∧ shaderScale 16 = 1 ∧
    ∀ b : Nat, shaderScale b =
      if b ≤ 8 ∨ 16 ≤ b then (1 : ℚ) else 65535 / ((2 ^ b - 1 : Nat) : ℚ) := by
  have hgen : ∀ b : Nat, shaderScale b =
      if b ≤ 8 ∨ 16 ≤ b then (1 : ℚ) else 65535 / ((2 ^ b - 1 : Nat) : ℚ) := by
    intro b
    by_cases hb : b ≤ 8 ∨ 16 ≤ b
    · rw [if_pos hb, shaderScale, if_pos]
      simp only [Bool.or_eq_true, decide_eq_true_eq, ge_iff_le]
      exact hb
    · have hcond : ¬ ((b ≤ 8 || b ≥ 16) = true) := by
        simp only [Bool.or_eq_true, decide_eq_true_eq, ge_iff_le]
        exact hb
      rw [if_neg hb, shaderScale, if_neg hcond, Nat.shiftLeft_eq, one_mul]
      norm_num
  refine ⟨?_, ?_, ?_, ?_, hgen⟩
  · rw [hgen 8, if_pos (Or.inl (by omega))]
  · rw [hgen 10, if_neg (by omega), show (2 ^ 10 - 1 : Nat) = 1023 from by norm_num]
    norm_num
  · rw [hgen 12, if_neg (by omega), show (2 ^ 12 - 1 : Nat) = 4095 from by norm_num]
    norm_num
  · rw [hgen 16, if_pos (Or.inr (by omega))]

/-- C2: for all image sizes and window sizes at least 1, `Resize(int, int)`
computes the scale as the minimum of the two window/image ratios and the
viewport as the truncated scaled image dimensions, centered; the viewport is
nonnegative and fits inside the window, preserves the aspect ratio up to the
integer-truncation tolerance `-Ih < vpW*Ih - vpH*Iw < Iw`, and on image
1280 × 960 with window 1920 × 1080 yields exactly (x, y, w, h) =
(240, 0, 1440, 1080). (Float arithmetic is modelled as exact rational
arithmetic; truncation toward zero is exact.) -/
theorem viewport_geometry (imageWidth imageHeight windowWidth windowHeight : Int)
    (hIw : 1 ≤ imageWidth) (hIh : 1 ≤ imageHeight)
    (hWw : 1 ≤ windowWidth) (hWh : 1 ≤ windowHeight) :
    (computeViewport imageWidth imageHeight windowWidth windowHeight).w =
      cIntTrunc ((imageWidth : ℚ) * cppMin ((windowWidth : ℚ) / (imageWidth : ℚ))
        ((windowHeight : ℚ) / (imageHeight : ℚ))) ∧
    (computeViewport imageWidth imageHeight windowWidth windowHeight).h =
      cIntTrunc ((imageHeight : ℚ) * cppMin ((windowWidth : ℚ) / (imageWidth : ℚ))
        ((windowHeight : ℚ) / (imageHeight : ℚ))) ∧
    0 ≤ (computeViewport imageWidth imageHeight windowWidth windowHeight).w ∧
    (computeViewport imageWidth imageHeight windowWidth windowHeight).w ≤ windowWidth ∧
    0 ≤ (computeViewport imageWidth imageHeight windowWidth windowHeight).h ∧
    (computeViewport imageWidth imageHeight windowWidth windowHeight).h ≤ windowHeight ∧
    -imageHeight <
      (computeViewport imageWidth imageHeight windowWidth windowHeight).w * imageHeight -
      (computeViewport imageWidth imageHeight windowWidth windowHeight).h * imageWidth ∧
    (computeViewport imageWidth imageHeight windowWidth windowHeight).w * imageHeight -
      (computeViewport imageWidth imageHeight windowWidth windowHeight).h * imageWidth <
      imageWidth ∧
    (computeViewport imageWidth imageHeight windowWidth windowHeight).x =
      Int.tdiv (windowWidth - (computeViewport imageWidth imageHeight windowWidth windowHeight).w) 2 ∧
    (computeViewport imageWidth imageHeight windowWidth windowHeight).y =
      Int.tdiv (windowHeight - (computeViewport imageWidth imageHeight windowWidth windowHeight).h) 2 ∧
    computeViewport 1280 960 1920 1080 = ⟨240, 0, 1440, 1080⟩ := by
  have h0Iw : (0 : ℚ) < (imageWidth : ℚ) := by
    have h : (0 : Int) < imageWidth := by omega
    exact_mod_cast h
  have h0Ih : (0 : ℚ) < (imageHeight : ℚ) := by
    have h : (0 : Int) < imageHeight := by omega
    exact_mod_cast h
  have h0Ww : (0 : ℚ) < (windowWidth : ℚ) := by
    have h : (0 : Int) < windowWidth := by omega
    exact_mod_cast h
  have h0Wh : (0 : ℚ) < (windowHeight : ℚ) := by
    have h : (0 : Int) < windowHeight := by omega
    exact_mod_cast h
  set q1 : ℚ := (windowWidth : ℚ) / (imageWidth : ℚ) with hq1
  set q2 : ℚ := (windowHeight : ℚ) / (imageHeight : ℚ) with hq2
  set scale : ℚ := cppMin q1 q2 with hscale
  have hs0 : 0 ≤ scale := cppMin_nonneg (le_of_lt (div_pos h0Ww h0Iw))
    (le_of_lt (div_pos h0Wh h0Ih))
  have hwprod0 : 0 ≤ (imageWidth : ℚ) * scale := mul_nonneg (le_of_lt h0Iw) hs0
  have hhprod0 : 0 ≤ (imageHeight : ℚ) * scale := mul_nonneg (le_of_lt h0Ih) hs0
  have hw_eq : (computeViewport imageWidth imageHeight windowWidth windowHeight).w =
      cIntTrunc ((imageWidth : ℚ) * scale) := rfl
  have hh_eq : (computeViewport imageWidth imageHeight windowWidth windowHeight).h =
      cIntTrunc ((imageHeight : ℚ) * scale) := rfl
  have hfW : cIntTrunc ((imageWidth : ℚ) * scale) = ⌊(imageWidth : ℚ) * scale⌋ :=
    cIntTrunc_eq_floor _ hwprod0
  have hfH : cIntTrunc ((imageHeight : ℚ) * scale) = ⌊(imageHeight : ℚ) * scale⌋ :=
    cIntTrunc_eq_floor _ hhprod0
  have hWle : (imageWidth : ℚ) * scale ≤ (windowWidth : ℚ) := by
    have h1 : scale ≤ q1 := cppMin_le_left q1 q2
    have h2 : (imageWidth : ℚ) * scale ≤ (imageWidth : ℚ) * q1 :=
      mul_le_mul_of_nonneg_left h1 (le_of_lt h0Iw)
    have h3 : (imageWidth : ℚ) * q1 = (windowWidth : ℚ) := by
      rw [hq1]
      field_simp
    rw [h3] at h2
    exact h2
  have hHle : (imageHeight : ℚ) * scale ≤ (windowHeight : ℚ) := by
    have h1 : scale ≤ q2 := cppMin_le_right q1 q2
    have h2 : (imageHeight : ℚ) * scale ≤ (imageHeight : ℚ) * q2 :=
      mul_le_mul_of_nonneg_left h1 (le_of_lt h0Ih)
    have h3 : (imageHeight : ℚ) * q2 = (windowHeight : ℚ) := by
      rw [hq2]
      field_simp
    rw [h3] at h2
    exact h2
  have hw_le : ⌊(imageWidth : ℚ) * scale⌋ ≤ windowWidth := by
    have h := Int.floor_le_floor hWle
    rwa [Int.floor_intCast] at h
  have hh_le : ⌊(imageHeight : ℚ) * scale⌋ ≤ windowHeight := by
    have h := Int.floor_le_floor hHle
    rwa [Int.floor_intCast] at h
  have hw_nonneg : 0 ≤ ⌊(imageWidth : ℚ) * scale⌋ := Int.floor_nonneg.mpr hwprod0
  have hh_nonneg : 0 ≤ ⌊(imageHeight : ℚ) * scale⌋ := Int.floor_nonneg.mpr hhprod0
  have hA1 : ((⌊(imageWidth : ℚ) * scale⌋ : Int) : ℚ) ≤ (imageWidth : ℚ) * scale :=
    Int.floor_le _
  have hA2 : (imageWidth : ℚ) * scale - 1 < ((⌊(imageWidth : ℚ) * scale⌋ : Int) : ℚ) :=
    Int.sub_one_lt_floor _
  have hB1 : ((⌊(imageHeight : ℚ) * scale⌋ : Int) : ℚ) ≤ (imageHeight : ℚ) * scale :=
    Int.floor_le _
  have hB2 : (imageHeight : ℚ) * scale - 1 < ((⌊(imageHeight : ℚ) * scale⌋ : Int) : ℚ) :=
    Int.sub_one_lt_floor _
  have haspect1 : -(imageHeight : ℚ) <
      ((⌊(imageWidth : ℚ) * scale⌋ : Int) : ℚ) * (imageHeight : ℚ) -
      ((⌊(imageHeight : ℚ) * scale⌋ : Int) : ℚ) * (imageWidth : ℚ) := by
    nlinarith [mul_le_mul_of_nonneg_right hB1 (le_of_lt h0Iw),
      mul_lt_mul_of_pos_right hA2 h0Ih]
  have haspect2 : ((⌊(imageWidth : ℚ) * scale⌋ : Int) : ℚ) * (imageHeight : ℚ) -
      ((⌊(imageHeight : ℚ) * scale⌋ : Int) : ℚ) * (imageWidth : ℚ) <
      (imageWidth : ℚ) := by
    nlinarith [mul_le_mul_of_nonneg_right hA1 (le_of_lt h0Ih),
      mul_lt_mul_of_pos_right hB2 h0Iw]
  refine ⟨hw_eq, hh_eq, ?_, ?_, ?_, ?_, ?_, ?_, rfl, rfl,
    computeViewport_1280_960_1920_1080⟩
  · rw [hw_eq, hfW]
    exact hw_nonneg
  · rw [hw_eq, hfW]
    exact hw_le
  · rw [hh_eq, hfH]
    exact hh_nonneg
  · rw [hh_eq, hfH]
    exact hh_le
  · rw [hw_eq, hh_eq, hfW, hfH]
    exact_mod_cast haspect1
  · rw [hw_eq, hh_eq, hfW, hfH]
    exact_mod_cast haspect2

/-- Witness for C2 at the spec's concrete scenario. -/
theorem viewport_geometry_witness :
    computeViewport 1280 960 1920 1080 = ⟨240, 0, 1440, 1080⟩ :=
  (viewport_geometry 1280 960 1920 1080 (by decide) (by decide) (by decide)
    (by decide)).2.2.2.2.2.2.2.2.2.2

end D3D11Render
